import Mathlib

/-!
Verification development for the csv_pg / zut.db CSV-to-database transfer engine.

The definitions below are a shallow embedding of the Python sources:
  csv_pg/column.py   (DataType, Column.__init__, Column.from_spec, Column.merge)
  csv_pg/base.py     (BaseContext.merge_columns)
  csv_pg/from_csv.py (FromCsvMixin.prepare_columns_from_file, unused-column loop)
  zut/db/mysql.py    (MysqlAdapter.escape_identifier, MysqlAdapter.truncate_table)
  zut/db/mssql.py    (MssqlAdapter.escape_identifier, MssqlAdapter.truncate_table,
                      MssqlAdapter._paginate_parsed_query, MssqlAdapter.load_from_csv)

Python `None`/optional values are `Option`, Python exceptions are modelled with
`Except PyErr` (or an explicit trace-plus-error pair where the order of executed
side effects matters), and Python strings are Lean `String`s handled at the
character-list level where the code iterates over characters.
-/

set_option autoImplicit false

namespace CsvPg

/-- The Python exceptions raised by the embedded code paths. -/
inductive PyErr where
  | valueError (msg : String)
  | notImplementedError (msg : String)
  | typeError (msg : String)
  deriving DecidableEq, Repr

/-- The `DataType` enum of csv_pg/column.py. -/
inductive DataType where
  | TEXT
  | VARCHAR
  | CHAR
  | INT
  | BIGINT
  | SMALLINT
  | DECIMAL
  | BOOL
  | DATE
  | TIMESTAMPTZ
  | TIMESTAMP
  deriving DecidableEq, Repr

/-- Module constant `TIMESTAMP_DEFAULT_PRECISION = 6` of csv_pg/column.py. -/
def TIMESTAMP_DEFAULT_PRECISION : Int := 6

/-- Module constant `DEFAULT_SEQ = "__seq__"`. -/
def DEFAULT_SEQ : String := "__seq__"

/-- Module constant `DEFAULT_FILENAME = "'__filename__'"`. -/
def DEFAULT_FILENAME : String := "'__filename__'"

/-- Module constant `DEFAULT_FILEPATH = "'__filepath__'"`. -/
def DEFAULT_FILEPATH : String := "'__filepath__'"

/-- The attributes a `Column` object carries after `Column.__init__` returns. -/
structure Column where
  name : String
  slug : String
  datatype : Option DataType
  precision : Option Int
  scale : Option Int
  notnull : Bool
  primarykey : Bool
  index : Bool
  default : Option String
  deriving DecidableEq, Repr

/-- The `datatype` argument of `Column.__init__`: Python `None`, a `DataType`
enum member, or a string. -/
inductive DataTypeArg where
  | noneArg
  | enumArg (d : DataType)
  | strArg (s : String)
  deriving DecidableEq, Repr

/-- The `DataType(datatype)` enum lookup by value, together with the alias
table of `Column.__init__` (column.py lines 40-59). `none` means the final
`raise NotImplementedError` branch. -/
def dataTypeOfString (s : String) : Option DataType :=
  if s = "text" then some .TEXT
  else if s = "varchar" then some .VARCHAR
  else if s = "char" then some .CHAR
  else if s = "int" then some .INT
  else if s = "bigint" then some .BIGINT
  else if s = "smallint" then some .SMALLINT
  else if s = "decimal" then some .DECIMAL
  else if s = "bool" then some .BOOL
  else if s = "date" then some .DATE
  else if s = "timestamptz" then some .TIMESTAMPTZ
  else if s = "timestamp" then some .TIMESTAMP
  else if s = "character varying" then some .VARCHAR
  else if s = "character" then some .CHAR
  else if s = "integer" then some .INT
  else if s = "boolean" then some .BOOL
  else if s = "numeric" then some .DECIMAL
  else if s = "timestamp with time zone" then some .TIMESTAMPTZ
  else if s = "datetimetz" then some .TIMESTAMPTZ
  else if s = "timestamp without time zone" then some .TIMESTAMP
  else if s = "datetime" then some .TIMESTAMP
  else none

/-- The datatype-parsing prefix of `Column.__init__` (column.py lines 34-59). -/
def parseDatatypeArg (name : String) : DataTypeArg → Except PyErr (Option DataType)
  | .noneArg => .ok none
  | .enumArg d => .ok (some d)
  | .strArg s =>
      match dataTypeOfString s with
      | some d => .ok (some d)
      | none =>
          .error (.notImplementedError ("data type \"" ++ s ++ "\" (column " ++ name ++ ")"))

/-- The precision/scale normalization of `Column.__init__` (column.py lines 61-69). -/
def initPrecScale (dt : Option DataType) (precision scale : Option Int) :
    Option Int × Option Int :=
  if dt = some .DECIMAL then (precision, scale)
  else if dt = some .CHAR ∨ dt = some .VARCHAR ∨ dt = some .TIMESTAMP ∨ dt = some .TIMESTAMPTZ
  then (precision, none)
  else (none, none)

/-- The default-normalization of `Column.__init__` (column.py lines 75-85).
Python truthiness of the `default` string argument: `None` and `""` take the
`else` branch and store `None`. -/
def parseDefault (default : Option String) : Option String :=
  match default with
  | none => none
  | some d =>
      if d = "" then none
      else if d.startsWith "nextval(" then some DEFAULT_SEQ
      else if d = DEFAULT_FILENAME ∨ d.startsWith (DEFAULT_FILENAME ++ "::") then
        some DEFAULT_FILENAME
      else if d = DEFAULT_FILEPATH ∨ d.startsWith (DEFAULT_FILEPATH ++ "::") then
        some DEFAULT_FILEPATH
      else some d

/-- The "specific fix" of `Column.__init__` dropping the default timestamp
precision (column.py lines 88-89). -/
def fixTimestampPrecision (dt : Option DataType) (precision : Option Int) : Option Int :=
  if (dt = some .TIMESTAMP ∨ dt = some .TIMESTAMPTZ) ∧
      precision = some TIMESTAMP_DEFAULT_PRECISION
  then none else precision

/-- Python `s.strip()`: drop leading and trailing whitespace (ASCII whitespace
modelled; the claims' inputs use none beyond spaces). -/
def pyStrip (s : String) : String :=
  String.mk (((s.data.dropWhile Char.isWhitespace).reverse.dropWhile Char.isWhitespace).reverse)

/-- Python truthiness of `self.default` (an optional string): `None` and the
empty string are falsy. -/
def pyTruthyStr : Option String → Bool
  | none => false
  | some s => s ≠ ""

/-- `Column.__init__` (column.py lines 30-92): `slug_func(self.name) if
slug_func else self.name`. The `slug_func` argument is `None` or a
normalization function. -/
def applySlug (slug_func : Option (String → String)) (name : String) : String :=
  match slug_func with
  | some f => f name
  | none => name

/-- `Column.__init__` continued: the full constructor. -/
def Column.init (name : String) (datatype : DataTypeArg) (precision scale : Option Int)
    (notnull primarykey index : Bool) (default : Option String)
    (slug_func : Option (String → String)) : Except PyErr Column :=
  let slug := applySlug slug_func name
  match parseDatatypeArg name datatype with
  | .error e => .error e
  | .ok dt =>
      let ps := initPrecScale dt precision scale
      let dflt := parseDefault default
      let prec := fixTimestampPrecision dt ps.1
      let nn := if primarykey || pyTruthyStr dflt then true else notnull
      .ok { name := name, slug := slug, datatype := dt, precision := prec,
            scale := ps.2, notnull := nn, primarykey := primarykey,
            index := index, default := dflt }

/-- The character loop of `split_options` inside `Column.from_spec`
(column.py lines 129-158). State: remaining characters, `in_parenthesis`
depth, `in_string` flag, the options parsed so far, the accumulator. -/
def splitOptionsGo : List Char → Nat → Bool → List String → String → Except PyErr (List String)
  | [], _, _, parsed, accu =>
      let accu := pyStrip accu
      .ok (if accu = "" then parsed else parsed ++ [accu])
  | c :: rest, inPar, inStr, parsed, accu =>
      if c = '-' then
        if inPar ≠ 0 then
          splitOptionsGo rest inPar inStr parsed (accu.push c)
        else
          let accu := pyStrip accu
          splitOptionsGo rest inPar inStr (if accu = "" then parsed else parsed ++ [accu]) ""
      else
        let accu := accu.push c
        if c = '(' ∧ inStr = false then
          splitOptionsGo rest (inPar + 1) inStr parsed accu
        else if c = ')' ∧ inStr = false then
          if inPar = 0 then
            .error (.valueError ("syntax error: cannot close parenthis in \"" ++ accu ++ "\""))
          else
            splitOptionsGo rest (inPar - 1) inStr parsed accu
        else if c = '\'' ∧ inPar ≠ 0 then
          splitOptionsGo rest inPar (!inStr) parsed accu
        else
          splitOptionsGo rest inPar inStr parsed accu

/-- `split_options` of `Column.from_spec` (column.py lines 129-158). -/
def Column.split_options (options : String) : Except PyErr (List String) :=
  splitOptionsGo options.data 0 false [] ""

/-- The digits of a matched `\d+` group converted by `int(...)` (ASCII digits). -/
def digitsToInt (ds : List Char) : Int :=
  ds.foldl (fun acc c => acc * 10 + ((c.toNat : Int) - 48)) 0

/-- `[a-z]` character class. -/
def isLowerAlpha (c : Char) : Bool := 'a' ≤ c && c ≤ 'z'

/-- The option regex `^default\((.+)\)$` of `Column.from_spec` (column.py
line 189): the greedy group is everything between `default(` and the final
`)`; `.` does not match a newline. -/
def matchDefault (opt : String) : Option String :=
  if opt.startsWith "default(" ∧ opt.endsWith ")" ∧ 10 ≤ opt.length then
    let inner := (opt.drop 8).dropRight 1
    if inner.data.contains '\n' then none else some inner
  else none

/-- The option regex `^([a-z]+)\s*\(\s*(\d+)\s*,\s*(\d+)\s*\)$` of
`Column.from_spec` (column.py line 191). The character classes are pairwise
disjoint, so maximal-munch scanning coincides with the regex. -/
def matchTypePrecScale (opt : String) : Option (String × Int × Int) :=
  let s1 := opt.data.span isLowerAlpha
  if s1.1 = [] then none else
  match s1.2.dropWhile Char.isWhitespace with
  | '(' :: r1 =>
      let s2 := (r1.dropWhile Char.isWhitespace).span Char.isDigit
      if s2.1 = [] then none else
      match s2.2.dropWhile Char.isWhitespace with
      | ',' :: r2 =>
          let s3 := (r2.dropWhile Char.isWhitespace).span Char.isDigit
          if s3.1 = [] then none else
          match s3.2.dropWhile Char.isWhitespace with
          | [')'] => some (String.mk s1.1, digitsToInt s2.1, digitsToInt s3.1)
          | _ => none
      | _ => none
  | _ => none

/-- The option regex `^([a-z]+)\s*\(\s*(\d+)\s*\)$` of `Column.from_spec`
(column.py line 195). -/
def matchTypePrec (opt : String) : Option (String × Int) :=
  let s1 := opt.data.span isLowerAlpha
  if s1.1 = [] then none else
  match s1.2.dropWhile Char.isWhitespace with
  | '(' :: r1 =>
      let s2 := (r1.dropWhile Char.isWhitespace).span Char.isDigit
      if s2.1 = [] then none else
      match s2.2.dropWhile Char.isWhitespace with
      | [')'] => some (String.mk s1.1, digitsToInt s2.1)
      | _ => none
  | _ => none

/-- The accumulated option state of the `for option in split_options(options)`
loop of `Column.from_spec` (the local variables of column.py lines 166-172). -/
structure SpecState where
  datatype : DataTypeArg
  precision : Option Int
  scale : Option Int
  notnull : Bool
  primarykey : Bool
  index : Bool
  default : Option String
  deriving DecidableEq, Repr

/-- One iteration of the option-dispatch loop of `Column.from_spec`
(column.py lines 176-199). -/
def applyOption (st : SpecState) (option : String) : SpecState :=
  if option = "notnull" then { st with notnull := true }
  else if option = "pk" then { st with primarykey := true }
  else if option = "ix" then { st with index := true }
  else if option = "seq" then { st with default := some DEFAULT_SEQ }
  else if option = "filename" then { st with default := some DEFAULT_FILENAME }
  else if option = "filepath" then { st with default := some DEFAULT_FILEPATH }
  else
    match matchDefault option with
    | some expr => { st with default := some expr }
    | none =>
        match matchTypePrecScale option with
        | some (ty, p, s) =>
            { st with datatype := .strArg ty, precision := some p, scale := some s }
        | none =>
            match matchTypePrec option with
            | some (ty, p) => { st with datatype := .strArg ty, precision := some p }
            | none => { st with datatype := .strArg option }

/-- The spec-splitting regex `^(?P<name>[^\:]+)(?:\:(?P<options>.+))?$` of
`Column.from_spec` (column.py line 160), modelled for inputs without newline
characters: the name is the non-empty prefix before the first `:`; the options
part, when the `:` is present, must be non-empty. `none` is a failed match. -/
def specNameOptions (spec : String) : Option (String × Option String) :=
  let s := spec.data.span (fun c => c ≠ ':')
  if s.1 = [] then none
  else
    match s.2 with
    | [] => some (String.mk s.1, none)
    | _ :: tail => if tail = [] then none else some (String.mk s.1, some (String.mk tail))

/-- `Column.from_spec` (column.py lines 127-201). -/
def Column.from_spec (spec : String) (slug_func : Option (String → String)) :
    Except PyErr Column :=
  match specNameOptions spec with
  | none => .error (.valueError ("invalid column spec: " ++ spec))
  | some (rawName, optionsOpt) =>
      let name := pyStrip rawName
      let st0 : SpecState := ⟨.enumArg .TEXT, none, none, false, false, false, none⟩
      let stE : Except PyErr SpecState :=
        match optionsOpt with
        | none => .ok st0
        | some options =>
            match Column.split_options options with
            | .error e => .error e
            | .ok opts => .ok (opts.foldl applyOption st0)
      match stE with
      | .error e => .error e
      | .ok st =>
          Column.init name st.datatype st.precision st.scale st.notnull st.primarykey
            st.index st.default slug_func

/-- `Column.merge` (column.py lines 204-216): each of six fields of the target
is overridden by the other column's field when that field is set. -/
def Column.merge (t o : Column) : Column :=
  { t with
    datatype := if o.datatype ≠ none then o.datatype else t.datatype,
    precision := if o.precision.isSome then o.precision else t.precision,
    scale := if o.scale.isSome then o.scale else t.scale,
    notnull := if o.notnull then o.notnull else t.notnull,
    primarykey := if o.primarykey then o.primarykey else t.primarykey,
    index := if o.index then o.index else t.index }

/-- Python `dict` assignment `d[k] = v` on an association list that keeps
insertion order: overwrite in place when the key exists, append otherwise.
`{column.slug: column for column in other_columns}` folds this from `[]`. -/
def dictInsert (d : List (String × Column)) (k : String) (v : Column) :
    List (String × Column) :=
  if d.any (fun p => p.1 = k) then d.map (fun p => if p.1 = k then (p.1, v) else p)
  else d ++ [(k, v)]

/-- The dict comprehension `{column.slug: column for column in other_columns}`
of `BaseContext.merge_columns` (base.py line 334). -/
def buildDict : List Column → List (String × Column) → List (String × Column)
  | [], d => d
  | c :: rest, d => buildDict rest (dictInsert d c.slug c)

/-- Python `d.pop(k, None)`: the value stored under `k` (or `none`) and the
dict without that entry. -/
def dictPop (d : List (String × Column)) (k : String) :
    Option Column × List (String × Column) :=
  match d with
  | [] => (none, [])
  | p :: rest =>
      if p.1 = k then (some p.2, rest)
      else
        let r := dictPop rest k
        (r.1, p :: r.2)

/-- The `for column in target_columns` loop of `BaseContext.merge_columns`
(base.py lines 337-342): returns the (in-place merged) target columns, the
`unmerged` list, and the remaining dict entries. -/
def mergeLoop : List Column → List (String × Column) →
    List Column × List Column × List (String × Column)
  | [], d => ([], [], d)
  | c :: rest, d =>
      match dictPop d c.slug with
      | (none, d1) =>
          let r := mergeLoop rest d1
          (c :: r.1, c :: r.2.1, r.2.2)
      | (some o, d1) =>
          let r := mergeLoop rest d1
          (Column.merge c o :: r.1, r.2.1, r.2.2)

/-- What `BaseContext.merge_columns` leaves behind: `self.columns` and the
returned `(unmerged, unused)` pair; on the degenerate branches Python returns
`(None, None)`. -/
structure MergeColumnsResult where
  columns : List Column
  unmerged : Option (List Column)
  unused : Option (List Column)
  deriving DecidableEq, Repr

/-- `BaseContext.merge_columns` (base.py lines 326-348). Python truthiness of
a list: the empty list is falsy. -/
def BaseContext.merge_columns (target_columns other_columns : List Column) :
    MergeColumnsResult :=
  if target_columns = [] then ⟨other_columns, none, none⟩
  else if other_columns = [] then ⟨target_columns, none, none⟩
  else
    let d := buildDict other_columns []
    let r := mergeLoop target_columns d
    ⟨r.1, some r.2.1, some (r.2.2.map Prod.snd)⟩

/-- A Python value handed to `str.join` in the embedded fragment of
`prepare_columns_from_file`: a `str`, or a `Column` object (CPython's
`str.join` raises `TypeError` on any non-`str` item). -/
inductive PyVal where
  | pyStr (s : String)
  | pyColumn (c : Column)
  deriving DecidableEq, Repr

/-- The item scan of CPython `sep.join(items)`: collects the strings, or
raises `TypeError` at the first non-`str` item (0-based index in the message). -/
def pyStrJoinAux : List PyVal → Nat → Except PyErr (List String)
  | [], _ => .ok []
  | .pyStr s :: rest, i =>
      match pyStrJoinAux rest (i + 1) with
      | .error e => .error e
      | .ok l => .ok (s :: l)
  | .pyColumn _ :: rest, i =>
      let _ := rest
      .error (.typeError ("sequence item " ++ toString i ++
        ": expected str instance, Column found"))

/-- CPython `sep.join(items)`. -/
def pyStrJoin (sep : String) (items : List PyVal) : Except PyErr String :=
  match pyStrJoinAux items 0 with
  | .error e => .error e
  | .ok l => .ok (String.intercalate sep l)

/-- The body of the `for column in unused` loop of
`FromCsvMixin.prepare_columns_from_file` (from_csv.py lines 24-29), with the
`self.columns_default` accumulator threaded through. The `raise` branch first
evaluates its message, `"column not found in csv file and without a default
value: %s" % ", ".join(unused)`, where `unused` is the full list of `Column`
objects. -/
def prepareUnusedGo (unused : List Column) : List Column → List Column →
    Except PyErr (List Column)
  | [], acc => .ok acc
  | c :: rest, acc =>
      if c.notnull = false ∨ c.default ≠ none then prepareUnusedGo unused rest (acc ++ [c])
      else
        match pyStrJoin ", " (unused.map PyVal.pyColumn) with
        | .error e => .error e
        | .ok joined =>
            .error (.valueError
              ("column not found in csv file and without a default value: " ++ joined))

/-- The `if unused:` fragment of `FromCsvMixin.prepare_columns_from_file`
(from_csv.py lines 22-29): the resulting `self.columns_default` list, or the
exception raised. -/
def FromCsvMixin.prepare_columns_unused (unused : List Column) :
    Except PyErr (List Column) :=
  prepareUnusedGo unused unused []

end CsvPg

namespace ZutDb

open CsvPg (PyErr)

/-- The database side effects the embedded zut.db loader can execute, in
execution order. -/
inductive DbAction where
  | truncate
  | bulkInsert
  deriving DecidableEq, Repr

/-- `MysqlAdapter.truncate_table` (mysql.py lines 102-105). With `cascade`
the adapter raises (the message names "mssql", as in the source); otherwise
the base-class implementation executes one TRUNCATE statement. -/
def MysqlAdapter.truncate_table (cascade : Bool) : Except PyErr (List DbAction) :=
  if cascade then .error (.valueError "Cascade truncate is not supported by mssql.")
  else .ok [DbAction.truncate]

/-- `MssqlAdapter.truncate_table` (mssql.py lines 178-181). -/
def MssqlAdapter.truncate_table (cascade : Bool) : Except PyErr (List DbAction) :=
  if cascade then .error (.valueError "Cascade truncate is not supported by mssql.")
  else .ok [DbAction.truncate]

/-- `MssqlAdapter.load_from_csv` (mssql.py lines 190-250), as the trace of
executed database actions plus the exception raised, if any. `fileIsStream`
is `isinstance(file, IOBase)`; `columns` and `noheaders` are the keyword
arguments; `csvNullval` is the resolved null value returned by
`_get_csv_params` (whose internals the claims do not depend on); `merge` is
the merge policy. `tmp_tab` is never assigned before the raises, so the
`finally` block executes nothing. -/
def MssqlAdapter.load_from_csv (fileIsStream : Bool) (columns : List String)
    (noheaders : Bool) (merge : Option String) (csvNullval : String) :
    List DbAction × Option PyErr :=
  if fileIsStream then
    ([], some (.notImplementedError "Cannot use IOBase file with mssql."))
  else if columns ≠ [] ∨ noheaders = false then
    ([], some (.notImplementedError "Arguments 'columns' or 'noheaders' cannot be used yet."))
  else if csvNullval ≠ "" then
    ([], some (.valueError ("Invalid csv nullval for mssql: \"" ++ csvNullval ++ "\"")))
  else if merge = some "truncate" ∨ merge = some "truncate-cascade" then
    match MssqlAdapter.truncate_table (decide (merge = some "truncate-cascade")) with
    | .error e => ([], some e)
    | .ok acts => (acts ++ [DbAction.bulkInsert], none)
  else if merge = some "upsert" then
    ([], some (.notImplementedError "Cannot use 'upsert' yet"))
  else ([DbAction.bulkInsert], none)

/-- `MssqlAdapter._paginate_parsed_query` (mssql.py lines 115-126).
`orderpart` is `''` when the parsed query has no ORDER BY clause
(base.py line 313); `{offset or 0}` is `offset.getD 0`. -/
def MssqlAdapter.paginate_parsed_query (selectpart orderpart : String)
    (limit offset : Option Int) : Except PyErr String :=
  if orderpart ≠ "" then
    let base := selectpart ++ " " ++ orderpart ++ " OFFSET " ++ toString (offset.getD 0) ++
      " ROWS"
    match limit with
    | some l => .ok (base ++ " FETCH NEXT " ++ toString l ++ " ROWS ONLY")
    | none => .ok base
  else
    match limit with
    | some l =>
        match offset with
        | some _ => .error (.valueError "an ORDER BY clause is required for OFFSET")
        | none => .ok ("SELECT TOP " ++ toString l ++ " * FROM (" ++ selectpart ++ ") s")
    | none => .ok selectpart

/-- Python `value.replace(old, new)` for a one-character pattern, on the
character list: each occurrence of `old` becomes `new`. -/
def replaceChar (old : Char) (new : List Char) : List Char → List Char
  | [] => []
  | c :: rest => (if c = old then new else [c]) ++ replaceChar old new rest

/-- `MysqlAdapter.escape_identifier` (mysql.py lines 72-75). -/
def MysqlAdapter.escape_identifier (value : String) : Except PyErr String :=
  if '`' ∈ value.data then .error (.valueError "Identifier cannot contain back ticks.")
  else .ok ("`" ++ value ++ "`")

/-- `MssqlAdapter.escape_identifier` (mssql.py lines 139-140):
`f"[{value.replace(']', ']]')}]"`. -/
def MssqlAdapter.escape_identifier (value : String) : String :=
  "[" ++ String.mk (replaceChar ']' [']', ']'] value.data) ++ "]"

/-- Stated from the claim's words, for comparison with the source embedding:
the name with every `]` character doubled. -/
def doubledClose : List Char → List Char
  | [] => []
  | c :: rest => if c = ']' then ']' :: ']' :: doubledClose rest else c :: doubledClose rest

end ZutDb

open CsvPg ZutDb

/-- The parenthesis/quote state machine of `split_options` without the token
accumulator: `true` exactly when the scan hits a closing parenthesis at depth
zero outside a single-quoted region, the only `raise` in `split_options`. -/
def errScan : List Char → Nat → Bool → Bool
  | [], _, _ => false
  | c :: rest, inPar, inStr =>
      if c = '-' then errScan rest inPar inStr
      else if c = '(' ∧ inStr = false then errScan rest (inPar + 1) inStr
      else if c = ')' ∧ inStr = false then
        if inPar = 0 then true else errScan rest (inPar - 1) inStr
      else if c = '\'' ∧ inPar ≠ 0 then errScan rest inPar (!inStr)
      else errScan rest inPar inStr

/-- Association-list lookup, the first entry stored under the key (proof-side
specification of the dict built in `merge_columns`). -/
def dictFind : List (String × CsvPg.Column) → String → Option CsvPg.Column
  | [], _ => none
  | p :: rest, k => if p.1 = k then some p.2 else dictFind rest k

/-- Concrete columns for the merge_columns witness. -/
def witT : CsvPg.Column :=
  { name := "id", slug := "id", datatype := none, precision := none, scale := none,
    notnull := false, primarykey := false, index := false, default := none }

/-- Concrete other-column for the merge_columns witness. -/
def witO : CsvPg.Column :=
  { name := "id", slug := "id", datatype := some .INT, precision := none, scale := none,
    notnull := true, primarykey := false, index := false, default := none }

/-- Concrete target column (slug `y`) for the merge_columns counterexample. -/
def cexT : CsvPg.Column :=
  { name := "t", slug := "y", datatype := none, precision := none, scale := none,
    notnull := false, primarykey := false, index := false, default := none }

/-- First of two other-columns sharing slug `x` for the counterexample. -/
def cexB1 : CsvPg.Column :=
  { name := "b1", slug := "x", datatype := none, precision := none, scale := none,
    notnull := false, primarykey := false, index := false, default := none }

/-- Second of two other-columns sharing slug `x` for the counterexample. -/
def cexB2 : CsvPg.Column :=
  { name := "b2", slug := "x", datatype := some .INT, precision := none, scale := none,
    notnull := false, primarykey := false, index := false, default := none }

/-- The not-null invariant of the spec: a primary-key column, or a column with
a default, is not null. -/
def colInv (c : Column) : Prop :=
  c.primarykey = true ∨ c.default ≠ none → c.notnull = true

/-- The precision/scale shape invariant of constructed Columns, stated over
the datatype stored on the column. -/
def psInv (c : Column) : Prop :=
  (c.datatype ≠ some .DECIMAL ∧ c.datatype ≠ some .CHAR ∧ c.datatype ≠ some .VARCHAR ∧
      c.datatype ≠ some .TIMESTAMP ∧ c.datatype ≠ some .TIMESTAMPTZ →
    c.precision = none ∧ c.scale = none) ∧
  ((c.datatype = some .CHAR ∨ c.datatype = some .VARCHAR ∨ c.datatype = some .TIMESTAMP ∨
      c.datatype = some .TIMESTAMPTZ) → c.scale = none) ∧
  ((c.datatype = some .TIMESTAMP ∨ c.datatype = some .TIMESTAMPTZ) →
    c.precision ≠ some 6)

theorem replaceChar_close_eq_doubledClose (l : List Char) :
    replaceChar ']' [']', ']'] l = doubledClose l := by
  induction l with
  | nil => rfl
  | cons c rest ih => by_cases h : c = ']' <;> simp [replaceChar, doubledClose, h, ih]

theorem mssql_escape_data (v : String) :
    (MssqlAdapter.escape_identifier v).data = '[' :: (doubledClose v.data ++ [']']) := by
  unfold MssqlAdapter.escape_identifier
  rw [String.data_append, String.data_append]
  simp [replaceChar_close_eq_doubledClose]

theorem doubledClose_injective : ∀ a b : List Char, doubledClose a = doubledClose b → a = b := by
  intro a
  induction a with
  | nil =>
      intro b h
      cases b with
      | nil => rfl
      | cons d b' =>
          by_cases hd : d = ']' <;> simp [doubledClose, hd] at h
  | cons c a' ih =>
      intro b h
      cases b with
      | nil =>
          by_cases hc : c = ']' <;> simp [doubledClose, hc] at h
      | cons d b' =>
          simp only [doubledClose] at h
          split_ifs at h with hc hd hd
          · injection h with h1 h2
            injection h2 with h3 h4
            rw [hc, hd, ih b' h4]
          · injection h with h1 h2
            exact absurd h1.symm hd
          · injection h with h1 h2
            exact absurd h1 hc
          · injection h with h1 h2
            rw [h1, ih b' h2]

/-- C1: the column spec string `id:int-pk-seq` parses to a Column named `id`
of datatype INT, primary key, auto-sequence default, and (enforced by the
constructor) not null. -/
theorem C1_from_spec_id_int_pk_seq :
    Column.from_spec "id:int-pk-seq" none =
      Except.ok { name := "id", slug := "id", datatype := some DataType.INT,
                  precision := none, scale := none, notnull := true, primarykey := true,
                  index := false, default := some DEFAULT_SEQ } := by
  rfl

theorem parseDefault_ne_some_empty (d : Option String) : parseDefault d ≠ some "" := by
  rcases d with _ | s
  · simp [parseDefault]
  · simp only [parseDefault]
    split_ifs <;> simp_all [DEFAULT_SEQ, DEFAULT_FILENAME, DEFAULT_FILEPATH]

theorem pyTruthyStr_parseDefault (d : Option String) (h : parseDefault d ≠ none) :
    pyTruthyStr (parseDefault d) = true := by
  rcases hd : parseDefault d with _ | s
  · exact absurd hd h
  · have : s ≠ "" := by
      intro hs
      exact parseDefault_ne_some_empty d (hs ▸ hd)
    simp [pyTruthyStr, this]

/-- The shape of every Column the constructor returns successfully. -/
theorem Column.init_ok {name : String} {datatype : DataTypeArg} {precision scale : Option Int}
    {notnull primarykey index : Bool} {default : Option String}
    {slug_func : Option (String → String)} {c : Column}
    (h : Column.init name datatype precision scale notnull primarykey index default
          slug_func = .ok c) :
    ∃ dt, parseDatatypeArg name datatype = .ok dt ∧
      c = { name := name,
            slug := applySlug slug_func name,
            datatype := dt,
            precision := fixTimestampPrecision dt (initPrecScale dt precision scale).1,
            scale := (initPrecScale dt precision scale).2,
            notnull := (if primarykey || pyTruthyStr (parseDefault default) then true
                        else notnull),
            primarykey := primarykey, index := index, default := parseDefault default } := by
  unfold Column.init at h
  cases hp : parseDatatypeArg name datatype with
  | error e => rw [hp] at h; exact absurd h (by simp)
  | ok dt =>
      rw [hp] at h
      simp only [Except.ok.injEq] at h
      exact ⟨dt, rfl, h.symm⟩

theorem init_colInv {name : String} {datatype : DataTypeArg} {precision scale : Option Int}
    {notnull primarykey index : Bool} {default : Option String}
    {slug_func : Option (String → String)} {c : Column}
    (h : Column.init name datatype precision scale notnull primarykey index default
          slug_func = .ok c) : colInv c := by
  obtain ⟨dt, -, hc⟩ := Column.init_ok h
  subst hc
  intro hp
  rcases hp with hpk | hdf
  · simp only at hpk
    simp [hpk]
  · simp only at hdf
    simp [pyTruthyStr_parseDefault default hdf]

theorem from_spec_colInv {spec : String} {slug_func : Option (String → String)} {c : Column}
    (h : Column.from_spec spec slug_func = .ok c) : colInv c := by
  unfold Column.from_spec at h
  cases hm : specNameOptions spec with
  | none => rw [hm] at h; exact absurd h (by simp)
  | some p =>
      rw [hm] at h
      rcases p with ⟨rawName, _ | options⟩
      · exact init_colInv h
      · simp only at h
        cases hs : Column.split_options options with
        | error e => rw [hs] at h; exact absurd h (by simp)
        | ok opts => rw [hs] at h; exact init_colInv h

theorem merge_notnull (t o : Column) :
    (Column.merge t o).notnull = (o.notnull || t.notnull) := by
  cases h : o.notnull <;> simp [Column.merge, h]

theorem merge_primarykey (t o : Column) :
    (Column.merge t o).primarykey = (o.primarykey || t.primarykey) := by
  cases h : o.primarykey <;> simp [Column.merge, h]

theorem merge_colInv (t o : Column) (ht : colInv t) (ho : colInv o) :
    colInv (Column.merge t o) := by
  intro hp
  rw [merge_notnull]
  rcases hp with hpk | hdf
  · rw [merge_primarykey] at hpk
    rcases Bool.or_eq_true _ _ |>.mp hpk with hopk | htpk
    · rw [ho (Or.inl hopk)]; simp
    · rw [ht (Or.inl htpk)]; simp
  · have : (Column.merge t o).default = t.default := rfl
    rw [this] at hdf
    rw [ht (Or.inr hdf)]
    simp

/-- C2: every Column returned by the constructor (hence by spec parsing, which
ends in the constructor) satisfies `primarykey ∨ default ≠ none → notnull`,
and `Column.merge` preserves the invariant. -/
theorem C2_notnull_invariant :
    (∀ (name : String) (datatype : DataTypeArg) (precision scale : Option Int)
        (notnull primarykey index : Bool) (default : Option String)
        (slug_func : Option (String → String)) (c : Column),
        Column.init name datatype precision scale notnull primarykey index default
          slug_func = .ok c → colInv c) ∧
    (∀ (spec : String) (slug_func : Option (String → String)) (c : Column),
        Column.from_spec spec slug_func = .ok c → colInv c) ∧
    (∀ t o : Column, colInv t → colInv o → colInv (Column.merge t o)) :=
  ⟨fun _ _ _ _ _ _ _ _ _ _ h => init_colInv h,
   fun _ _ _ h => from_spec_colInv h,
   merge_colInv⟩

/-- C9: every successfully constructed Column stores precision and scale as
`None` except for DECIMAL (both may be set) and CHAR/VARCHAR/TIMESTAMP/
TIMESTAMPTZ (precision only, scale always `None`), whatever precision/scale
arguments were passed; and a TIMESTAMP/TIMESTAMPTZ precision of 6 is stored
as `None`. -/
theorem C9_precision_scale_shape (name : String) (datatype : DataTypeArg)
    (precision scale : Option Int) (notnull primarykey index : Bool)
    (default : Option String) (slug_func : Option (String → String)) (c : Column)
    (h : Column.init name datatype precision scale notnull primarykey index default
          slug_func = .ok c) : psInv c := by
  obtain ⟨dt, -, hc⟩ := Column.init_ok h
  subst hc
  rcases dt with - | d
  · simp [psInv, initPrecScale, fixTimestampPrecision]
  · cases d <;>
      simp [psInv, initPrecScale, fixTimestampPrecision, TIMESTAMP_DEFAULT_PRECISION]

/-- Witness for C9: the constructor applied to a TIMESTAMP column with
precision 6 (which is stored as `None`). -/
theorem C9_precision_scale_shape_witness :
    psInv { name := "x", slug := "x", datatype := some DataType.TIMESTAMP,
            precision := none, scale := none, notnull := false, primarykey := false,
            index := false, default := none } :=
  C9_precision_scale_shape "x" (.strArg "timestamp") (some 6) none false false false
    none none _ rfl

/-- C8: `Column.merge` never changes the target's `name`, `slug` or `default`
field; only datatype, precision, scale, notnull, primarykey and index can be
overridden. -/
theorem C8_merge_frame (t o : Column) :
    (Column.merge t o).name = t.name ∧ (Column.merge t o).slug = t.slug ∧
      (Column.merge t o).default = t.default :=
  ⟨rfl, rfl, rfl⟩

/-- C7: evaluating the SQL Server pagination rewrite at a request with a
non-null offset and no ORDER BY clause. With no limit the code silently
returns the un-paginated SELECT, dropping the offset, instead of raising; the
dialect-constraint error is raised only when a limit is also given. -/
theorem C7_offset_dropped_without_order_by :
    MssqlAdapter.paginate_parsed_query "SELECT * FROM t" "" none (some 5) =
      Except.ok "SELECT * FROM t" ∧
    MssqlAdapter.paginate_parsed_query "SELECT * FROM t" "" (some 10) (some 5) =
      Except.error (PyErr.valueError "an ORDER BY clause is required for OFFSET") :=
  ⟨rfl, rfl⟩

/-- C4: evaluating the unused-column loop of `prepare_columns_from_file`. A
not-null unused column without a default does take the `raise` branch, but
building the message applies `", ".join` to the list of Column objects, so the
call raises `TypeError` instead of the documented ValueError message naming
the column; a nullable unused column is appended to `columns_default`. -/
theorem C4_unused_notnull_raises_typeerror :
    FromCsvMixin.prepare_columns_unused
        [{ name := "created_at", slug := "created_at", datatype := some DataType.TIMESTAMP,
           precision := none, scale := none, notnull := true, primarykey := false,
           index := false, default := none }] =
      Except.error (PyErr.typeError "sequence item 0: expected str instance, Column found") ∧
    FromCsvMixin.prepare_columns_unused
        [{ name := "note", slug := "note", datatype := some DataType.TEXT,
           precision := none, scale := none, notnull := false, primarykey := false,
           index := false, default := none }] =
      Except.ok
        [{ name := "note", slug := "note", datatype := some DataType.TEXT,
           precision := none, scale := none, notnull := false, primarykey := false,
           index := false, default := none }] := by
  exact ⟨rfl, rfl⟩

/-- C10: the MySQL identifier escaper rejects any name holding a backtick and
wraps every other name in backticks; the SQL Server identifier escaper wraps
every name in square brackets with each `]` doubled (stated against
`doubledClose`, the claim's own description), and is injective. -/
theorem C10_escape_identifier_total :
    (∀ v : String,
        ('`' ∈ v.data → ∃ e, MysqlAdapter.escape_identifier v = .error e) ∧
        ('`' ∉ v.data → MysqlAdapter.escape_identifier v = .ok ("`" ++ v ++ "`"))) ∧
    (∀ v : String,
        (MssqlAdapter.escape_identifier v).data = '[' :: (doubledClose v.data ++ [']'])) ∧
    (∀ v w : String,
        MssqlAdapter.escape_identifier v = MssqlAdapter.escape_identifier w → v = w) := by
  refine ⟨fun v => ⟨fun h => ?_, fun h => ?_⟩, mssql_escape_data, fun v w h => ?_⟩
  · exact ⟨PyErr.valueError "Identifier cannot contain back ticks.",
      by simp [MysqlAdapter.escape_identifier, h]⟩
  · simp [MysqlAdapter.escape_identifier, h]
  · have hd : (MssqlAdapter.escape_identifier v).data = (MssqlAdapter.escape_identifier w).data := by
      rw [h]
    rw [mssql_escape_data, mssql_escape_data] at hd
    have hdd : doubledClose v.data = doubledClose w.data :=
      List.append_cancel_right (List.cons_injective hd)
    exact String.ext (doubledClose_injective _ _ hdd)

/-- C6: capability-unsupported requests fail fast. Cascade truncate raises on
MySQL and on SQL Server; on the SQL Server bulk loader an in-memory stream
source always raises its "unsupported" error with no action executed, and an
upsert merge request always ends in an error with no bulk insert in the
executed trace — and with the exact `Cannot use 'upsert' yet` error once the
argument guards pass. -/
theorem C6_capability_errors :
    MysqlAdapter.truncate_table true =
      Except.error (PyErr.valueError "Cascade truncate is not supported by mssql.") ∧
    MssqlAdapter.truncate_table true =
      Except.error (PyErr.valueError "Cascade truncate is not supported by mssql.") ∧
    (∀ (columns : List String) (noheaders : Bool) (csvNullval : String),
        (∃ e, (MssqlAdapter.load_from_csv false columns noheaders (some "upsert")
                csvNullval).2 = some e) ∧
        DbAction.bulkInsert ∉
          (MssqlAdapter.load_from_csv false columns noheaders (some "upsert") csvNullval).1 ∧
        (columns = [] → noheaders = true → csvNullval = "" →
          (MssqlAdapter.load_from_csv false columns noheaders (some "upsert") csvNullval).2 =
            some (PyErr.notImplementedError "Cannot use 'upsert' yet"))) ∧
    (∀ (columns : List String) (noheaders : Bool) (merge : Option String)
        (csvNullval : String),
        MssqlAdapter.load_from_csv true columns noheaders merge csvNullval =
          ([], some (PyErr.notImplementedError "Cannot use IOBase file with mssql."))) := by
  refine ⟨rfl, rfl, fun columns noheaders csvNullval => ?_, fun _ _ _ _ => rfl⟩
  by_cases hc : columns = []
  · by_cases hn : noheaders = true
    · by_cases hv : csvNullval = ""
      · subst hc hn hv
        refine ⟨⟨PyErr.notImplementedError "Cannot use 'upsert' yet", rfl⟩, ?_, fun _ _ _ => rfl⟩
        simp [MssqlAdapter.load_from_csv]
      · constructor
        · exact ⟨PyErr.valueError ("Invalid csv nullval for mssql: \"" ++ csvNullval ++ "\""),
            by simp [MssqlAdapter.load_from_csv, hc, hn, hv]⟩
        · exact ⟨by simp [MssqlAdapter.load_from_csv, hc, hn, hv], fun _ _ h => absurd h hv⟩
    · constructor
      · exact ⟨PyErr.notImplementedError "Arguments 'columns' or 'noheaders' cannot be used yet.",
          by simp [MssqlAdapter.load_from_csv, hc, hn]⟩
      · exact ⟨by simp [MssqlAdapter.load_from_csv, hc, hn], fun _ h _ => absurd h hn⟩
  · constructor
    · exact ⟨PyErr.notImplementedError "Arguments 'columns' or 'noheaders' cannot be used yet.",
        by simp [MssqlAdapter.load_from_csv, hc]⟩
    · exact ⟨by simp [MssqlAdapter.load_from_csv, hc], fun h _ _ => absurd h hc⟩

theorem splitOptionsGo_error_iff :
    ∀ (chars : List Char) (inPar : Nat) (inStr : Bool) (parsed : List String) (accu : String),
      (∃ e, splitOptionsGo chars inPar inStr parsed accu = .error e) ↔
        errScan chars inPar inStr = true := by
  intro chars
  induction chars with
  | nil => intro inPar inStr parsed accu; simp [splitOptionsGo, errScan]
  | cons c rest ih =>
      intro inPar inStr parsed accu
      by_cases h1 : c = '-'
      · by_cases h2 : inPar ≠ 0 <;> simp [splitOptionsGo, errScan, h1, h2, ih]
      · by_cases h2 : c = '(' ∧ inStr = false
        · simp [splitOptionsGo, errScan, h1, h2, ih]
        · by_cases h3 : c = ')' ∧ inStr = false
          · by_cases h4 : inPar = 0 <;>
              simp [splitOptionsGo, errScan, h1, h2, h3, h4, ih]
          · by_cases h5 : c = '\'' ∧ inPar ≠ 0 <;>
              simp [splitOptionsGo, errScan, h1, h2, h3, h5, ih]

/-- C5 counterexample: the input `a(` leaves a parenthesis unclosed (malformed
nesting), yet `split_options` returns a token list instead of raising. -/
theorem C5_counterexample_unclosed_paren :
    Column.split_options "a(" = Except.ok ["a("] := rfl

/-- C5 (amended): a hyphen read at positive parenthesis depth is appended to
the current token rather than closing it (so `default('a-b')` stays one
token), and `split_options` raises exactly on the inputs whose scan reaches a
closing parenthesis at depth zero outside a single-quoted region — inputs
with unclosed opening parentheses are accepted. -/
theorem C5_amended_split_options :
    Column.split_options "default('a-b')" = Except.ok ["default('a-b')"] ∧
    (∀ (rest : List Char) (inPar : Nat) (inStr : Bool) (parsed : List String)
        (accu : String), inPar ≠ 0 →
        splitOptionsGo ('-' :: rest) inPar inStr parsed accu =
          splitOptionsGo rest inPar inStr parsed (accu.push '-')) ∧
    (∀ s : String, (∃ e, Column.split_options s = .error e) ↔ errScan s.data 0 false = true) ∧
    Column.split_options "a)" =
      Except.error (PyErr.valueError "syntax error: cannot close parenthis in \"a)\"") ∧
    Column.split_options "a(bc" = Except.ok ["a(bc"] := by
  refine ⟨rfl, fun rest inPar inStr parsed accu h => ?_, fun s => ?_, rfl, rfl⟩
  · simp [splitOptionsGo, h]
  · exact splitOptionsGo_error_iff s.data 0 false [] ""

theorem dictPop_fst : ∀ (d : List (String × Column)) (k : String),
    (dictPop d k).1 = dictFind d k := by
  intro d k
  induction d with
  | nil => rfl
  | cons p rest ih => by_cases h : p.1 = k <;> simp [dictPop, dictFind, h, ih]

theorem dictPop_none_snd : ∀ (d : List (String × Column)) (k : String),
    dictFind d k = none → (dictPop d k).2 = d := by
  intro d k
  induction d with
  | nil => intro h; rfl
  | cons p rest ih =>
      intro h
      by_cases hp : p.1 = k
      · simp [dictFind, hp] at h
      · simp [dictFind, hp] at h
        simp [dictPop, hp, ih h]

theorem dictFind_dictPop_ne : ∀ (d : List (String × Column)) (k k' : String), k' ≠ k →
    dictFind (dictPop d k).2 k' = dictFind d k' := by
  intro d k k' hne
  induction d with
  | nil => rfl
  | cons p rest ih =>
      by_cases hp : p.1 = k
      · have hp' : p.1 ≠ k' := by rw [hp]; exact fun h => hne h.symm
        have hkk : k ≠ k' := fun h => hne h.symm
        simp [dictPop, dictFind, hp, hp', hkk]
      · simp [dictPop, dictFind, hp, ih]

theorem dictFind_pop_none_of_none : ∀ (d : List (String × Column)) (k k' : String),
    dictFind d k' = none → dictFind (dictPop d k).2 k' = none := by
  intro d k k' h
  by_cases hne : k' = k
  · subst hne
    rw [dictPop_none_snd d k' h]
    exact h
  · rw [dictFind_dictPop_ne d k k' hne]
    exact h

theorem mem_dictPop_of_ne : ∀ (d : List (String × Column)) (k : String) (p : String × Column),
    p ∈ d → p.1 ≠ k → p ∈ (dictPop d k).2 := by
  intro d k p hp hne
  induction d with
  | nil => cases hp
  | cons q rest ih =>
      rcases List.mem_cons.mp hp with rfl | hmem
      · simp [dictPop, hne]
      · by_cases hq : q.1 = k
        · simpa [dictPop, hq] using hmem
        · simp only [dictPop, hq, if_neg hq]
          exact List.mem_cons.mpr (Or.inr (ih hmem))

theorem mergeLoop_columns_get :
    ∀ (target : List Column) (d : List (String × Column)),
      (target.map fun c => c.slug).Nodup →
      ∀ (i : Nat) (hi : i < target.length),
        (mergeLoop target d).1.get? i = some
          (match dictFind d (target.get ⟨i, hi⟩).slug with
           | some o => Column.merge (target.get ⟨i, hi⟩) o
           | none => target.get ⟨i, hi⟩) := by
  intro target
  induction target with
  | nil => intro d _ i hi; exact absurd hi (by simp)
  | cons c rest ih =>
      intro d hnd i hi
      have hnd' : (rest.map fun c => c.slug).Nodup := (List.nodup_cons.mp hnd).2
      have hcs : c.slug ∉ rest.map fun c => c.slug := (List.nodup_cons.mp hnd).1
      cases hfind : dictFind d c.slug with
      | none =>
          have hpop : dictPop d c.slug = (none, d) := by
            have h1 := dictPop_fst d c.slug
            have h2 := dictPop_none_snd d c.slug hfind
            rw [hfind] at h1
            exact Prod.ext h1 h2
          cases i with
          | zero => simp [mergeLoop, hpop, hfind]
          | succ j =>
              have hj : j < rest.length := by simpa using hi
              have h9 := ih d hnd' j hj
              simpa [mergeLoop, hpop] using h9
      | some o =>
          have hpop : (dictPop d c.slug).1 = some o := by
            rw [dictPop_fst, hfind]
          cases i with
          | zero =>
              cases hp : dictPop d c.slug with
              | mk v d1 =>
                  rw [hp] at hpop
                  simp at hpop
                  subst hpop
                  simp [mergeLoop, hp, hfind]
          | succ j =>
              have hj : j < rest.length := by simpa using hi
              cases hp : dictPop d c.slug with
              | mk v d1 =>
                  rw [hp] at hpop
                  simp at hpop
                  subst hpop
                  have hslug : (rest.get ⟨j, hj⟩).slug ≠ c.slug := by
                    intro heq
                    exact hcs (heq ▸ List.mem_map_of_mem (fun c => c.slug) (rest.get_mem j hj))
                  have hfind1 : dictFind d1 (rest.get ⟨j, hj⟩).slug =
                      dictFind d (rest.get ⟨j, hj⟩).slug := by
                    have := dictFind_dictPop_ne d c.slug (rest.get ⟨j, hj⟩).slug hslug
                    rw [hp] at this
                    exact this
                  have h9 := ih d1 hnd' j hj
                  rw [hfind1] at h9
                  simpa [mergeLoop, hp] using h9

theorem mergeLoop_unmerged :
    ∀ (target : List Column) (d : List (String × Column)) (c : Column),
      c ∈ target → dictFind d c.slug = none → c ∈ (mergeLoop target d).2.1 := by
  intro target
  induction target with
  | nil => intro d c hc; cases hc
  | cons t rest ih =>
      intro d c hc hfind
      rcases List.mem_cons.mp hc with rfl | hmem
      · have hpop : dictPop d c.slug = (none, d) := by
          have h1 := dictPop_fst d c.slug
          have h2 := dictPop_none_snd d c.slug hfind
          rw [hfind] at h1
          exact Prod.ext h1 h2
        simp [mergeLoop, hpop]
      · cases hp : dictPop d t.slug with
        | mk v d1 =>
            have hfind1 : dictFind d1 c.slug = none := by
              have := dictFind_pop_none_of_none d t.slug c.slug hfind
              rw [hp] at this
              exact this
            cases v with
            | none => simp [mergeLoop, hp]; right; exact ih d1 c hmem hfind1
            | some o => simp [mergeLoop, hp]; exact ih d1 c hmem hfind1

theorem mergeLoop_unused :
    ∀ (target : List Column) (d : List (String × Column)) (p : String × Column),
      p ∈ d → (∀ c ∈ target, c.slug ≠ p.1) → p ∈ (mergeLoop target d).2.2 := by
  intro target
  induction target with
  | nil => intro d p hp _; simpa [mergeLoop] using hp
  | cons t rest ih =>
      intro d p hp hne
      have ht : t.slug ≠ p.1 := hne t (List.mem_cons_self t rest)
      have hp1 : p ∈ (dictPop d t.slug).2 :=
        mem_dictPop_of_ne d t.slug p hp (fun h => ht h.symm)
      cases hpp : dictPop d t.slug with
      | mk v d1 =>
          rw [hpp] at hp1
          have hrest : ∀ c ∈ rest, c.slug ≠ p.1 :=
            fun c hc => hne c (List.mem_cons.mpr (Or.inr hc))
          cases v with
          | none => simpa [mergeLoop, hpp] using ih d1 p hp1 hrest
          | some o => simpa [mergeLoop, hpp] using ih d1 p hp1 hrest

theorem buildDict_eq_map :
    ∀ (other : List Column) (d : List (String × Column)),
      (∀ c ∈ other, ∀ p ∈ d, p.1 ≠ c.slug) → (other.map fun c => c.slug).Nodup →
      buildDict other d = d ++ other.map (fun c => (c.slug, c)) := by
  intro other
  induction other with
  | nil => intro d _ _; simp [buildDict]
  | cons c rest ih =>
      intro d hdisj hnd
      have hins : dictInsert d c.slug c = d ++ [(c.slug, c)] := by
        have hnone : ¬ d.any (fun p => p.1 = c.slug) = true := by
          simp only [List.any_eq_true, decide_eq_true_eq, not_exists]
          intro p
          simp only [not_and]
          exact fun hmem => hdisj c (List.mem_cons_self c rest) p hmem
        simp [dictInsert, hnone]
      have hnd' : (rest.map fun c => c.slug).Nodup := (List.nodup_cons.mp hnd).2
      have hcs : c.slug ∉ rest.map fun c => c.slug := (List.nodup_cons.mp hnd).1
      have hdisj' : ∀ c' ∈ rest, ∀ p ∈ d ++ [(c.slug, c)], p.1 ≠ c'.slug := by
        intro c' hc' p hp
        rcases List.mem_append.mp hp with hpd | hpc
        · exact hdisj c' (List.mem_cons.mpr (Or.inr hc')) p hpd
        · have : p = (c.slug, c) := by simpa using hpc
          subst this
          intro h
          apply hcs
          rw [show c.slug = c'.slug from h]
          exact List.mem_map_of_mem (fun c => c.slug) hc' 
      calc buildDict (c :: rest) d = buildDict rest (dictInsert d c.slug c) := rfl
        _ = buildDict rest (d ++ [(c.slug, c)]) := by rw [hins]
        _ = (d ++ [(c.slug, c)]) ++ rest.map (fun c => (c.slug, c)) := ih _ hdisj' hnd'
        _ = d ++ (c :: rest).map (fun c => (c.slug, c)) := by simp

theorem dictFind_map_of_mem :
    ∀ (other : List Column) (o : Column), (other.map fun c => c.slug).Nodup →
      o ∈ other → dictFind (other.map fun c => (c.slug, c)) o.slug = some o := by
  intro other
  induction other with
  | nil => intro o _ ho; cases ho
  | cons c rest ih =>
      intro o hnd ho
      have hnd' : (rest.map fun c => c.slug).Nodup := (List.nodup_cons.mp hnd).2
      have hcs : c.slug ∉ rest.map fun c => c.slug := (List.nodup_cons.mp hnd).1
      rcases List.mem_cons.mp ho with rfl | hmem
      · simp [dictFind]
      · have hne : c.slug ≠ o.slug := by
          intro h
          exact hcs (h ▸ List.mem_map_of_mem (fun c => c.slug) hmem)
        simp only [List.map_cons, dictFind, if_neg hne]
        exact ih o hnd' hmem

theorem dictFind_map_of_forall_ne :
    ∀ (other : List Column) (s : String), (∀ o ∈ other, o.slug ≠ s) →
      dictFind (other.map fun c => (c.slug, c)) s = none := by
  intro other
  induction other with
  | nil => intro s _; rfl
  | cons c rest ih =>
      intro s hne
      simp only [List.map_cons, dictFind,
        if_neg (hne c (List.mem_cons_self c rest))]
      exact ih s (fun o ho => hne o (List.mem_cons.mpr (Or.inr ho)))

/-- C3 counterexample: with two `other` columns sharing the slug `x`, the
earlier duplicate is overwritten while the dict is built and never reported:
it is not consumed by any match, yet it does not appear in `unused`. -/
theorem C3_counterexample_duplicate_slug :
    ¬ (∀ o ∈ [cexB1, cexB2],
        (∀ c ∈ [cexT], c.slug ≠ o.slug) →
        ∃ u, (BaseContext.merge_columns [cexT] [cexB1, cexB2]).unused = some u ∧ o ∈ u) := by
  intro h
  obtain ⟨u, hu, hmem⟩ := h cexB1 (by decide) (by decide)
  have hcomp : (BaseContext.merge_columns [cexT] [cexB1, cexB2]).unused = some [cexB2] := by
    decide
  rw [hcomp] at hu
  have : u = [cexB2] := (Option.some.inj hu.symm)
  subst this
  rw [List.mem_singleton] at hmem
  exact absurd hmem (by decide)

/-- C3 (amended): `merge_columns` takes the other list wholesale with no
unmerged/unused report when either list is empty; otherwise — provided the
slugs are pairwise distinct within each list, which the duplicate-slug
counterexample forces — each target column matching an `other` column by slug
is merged with it in place, each target column whose slug is absent from
`other` appears in `unmerged`, and each `other` column matched by no target
appears in `unused`. -/
theorem C3_amended_merge_columns (target other : List Column)
    (ht : (target.map fun c => c.slug).Nodup) (ho : (other.map fun c => c.slug).Nodup) :
    (target = [] → BaseContext.merge_columns target other =
      ⟨other, none, none⟩) ∧
    (target ≠ [] → other = [] → BaseContext.merge_columns target other =
      ⟨target, none, none⟩) ∧
    (target ≠ [] → other ≠ [] →
      (∀ (i : Nat) (hi : i < target.length), ∀ o ∈ other,
          o.slug = (target.get ⟨i, hi⟩).slug →
          (BaseContext.merge_columns target other).columns.get? i =
            some (Column.merge (target.get ⟨i, hi⟩) o)) ∧
      (∀ c ∈ target, (∀ o ∈ other, o.slug ≠ c.slug) →
          ∃ u, (BaseContext.merge_columns target other).unmerged = some u ∧ c ∈ u) ∧
      (∀ o ∈ other, (∀ c ∈ target, c.slug ≠ o.slug) →
          ∃ u, (BaseContext.merge_columns target other).unused = some u ∧ o ∈ u)) := by
  refine ⟨fun h => ?_, fun h1 h2 => ?_, fun h1 h2 => ?_⟩
  · simp [BaseContext.merge_columns, h]
  · simp [BaseContext.merge_columns, h1, h2]
  · have hdict : buildDict other [] = other.map (fun c => (c.slug, c)) := by
      have := buildDict_eq_map other [] (by simp) ho
      simpa using this
    have hmc : BaseContext.merge_columns target other =
        ⟨(mergeLoop target (buildDict other [])).1,
         some (mergeLoop target (buildDict other [])).2.1,
         some ((mergeLoop target (buildDict other [])).2.2.map Prod.snd)⟩ := by
      simp [BaseContext.merge_columns, h1, h2]
    refine ⟨fun i hi o hoo hslug => ?_, fun c hc hne => ?_, fun o hoo hne => ?_⟩
    · have hfind : dictFind (buildDict other []) (target.get ⟨i, hi⟩).slug = some o := by
        rw [hdict, ← hslug]
        exact dictFind_map_of_mem other o ho hoo
      have := mergeLoop_columns_get target (buildDict other []) ht i hi
      rw [hfind] at this
      rw [hmc]
      exact this
    · have hfind : dictFind (buildDict other []) c.slug = none := by
        rw [hdict]
        exact dictFind_map_of_forall_ne other c.slug hne
      refine ⟨(mergeLoop target (buildDict other [])).2.1, by rw [hmc], ?_⟩
      exact mergeLoop_unmerged target (buildDict other []) c hc hfind
    · have hmem : (o.slug, o) ∈ buildDict other [] := by
        rw [hdict]
        exact List.mem_map_of_mem (fun c => (c.slug, c)) hoo
      have hsurv : (o.slug, o) ∈ (mergeLoop target (buildDict other [])).2.2 :=
        mergeLoop_unused target (buildDict other []) (o.slug, o) hmem hne
      refine ⟨(mergeLoop target (buildDict other [])).2.2.map Prod.snd, by rw [hmc], ?_⟩
      exact List.mem_map_of_mem Prod.snd hsurv

/-- Witness for C3 (amended): a one-column target merged with a matching
one-column other list. -/
theorem C3_amended_merge_columns_witness :
    (BaseContext.merge_columns [witT] [witO]).columns.get? 0 =
      some (Column.merge witT witO) := by
  have h := C3_amended_merge_columns [witT] [witO] (by decide) (by decide)
  exact (h.2.2 (by decide) (by decide)).1 0 (by decide) witO (by decide) (by decide)
